import Mathlib

/-!
Shallow embedding of the rcluster repository's core
(`rcluster/rcluster.py` and `rcluster/pmkutils.py`) together with
theorems settling the specification claims about it.

Conventions of the embedding:
* Python exceptions are modelled by the `PyErr` type; fallible code
  returns `Except PyErr α` or records an `Option PyErr`.
* A remote command execution is summarised by a `RemoteResult`
  (captured stdout, captured stderr, exit status); functions that
  issue remote commands take such results as oracle inputs.
* Mutable object state is passed explicitly (`RCState`, cluster
  creation results, ...).
-/

namespace RclusterSpec

/-- Python exceptions relevant to the embedded code. -/
inductive PyErr where
  | valueError (msg : String)
  | typeError (msg : String)
  | indexError
  | exception (msg : String)
deriving DecidableEq, Repr

/-- Outcome of one remote command execution, as observed by the client:
the full captured standard output, the full captured standard error and
the remote exit status. -/
structure RemoteResult where
  stdout : String
  stderr : String
  exitStatus : Nat
deriving DecidableEq, Repr

/-- Embedding of `pmkutils.pmkCmd` (`pmkutils.py` lines 39-57).
The Python loop `lines += line` extends the accumulator list with the
characters of each chunk read from stdout, so over the whole run the
accumulator is exactly the character list of the captured stdout,
independent of how `readline(2048)` chunks it.  When the remote exit
status is non-zero (truthy), the code raises
`Exception(''.join(stderr.readlines()).encode('utf-8'))`: the raised
error carries the captured stderr text and nothing else. -/
def pmkCmd (r : RemoteResult) : Except PyErr (List Char) :=
  if r.exitStatus ≠ 0 then Except.error (PyErr.exception r.stderr)
  else Except.ok r.stdout.data

/-- Embedding of Python `int(c)` applied to a one-character string, as
in `int(cpus[0])`: a decimal digit parses to its value, anything else
raises `ValueError`. -/
def pyIntChar (c : Char) : Except PyErr Nat :=
  if c.isDigit then Except.ok (c.toNat - 48)
  else Except.error (PyErr.valueError "invalid literal for int() with base 10")

/-- Embedding of `pmkutils.cpuCount` (`pmkutils.py` lines 60-67):
`cpus = pmkCmd(client, ...)` yields the character list of stdout, then
`int(cpus[0])` parses the first character alone (raising `IndexError`
on empty output). -/
def cpuCount (r : RemoteResult) : Except PyErr Nat :=
  match pmkCmd r with
  | Except.error e => Except.error e
  | Except.ok [] => Except.error PyErr.indexError
  | Except.ok (c :: _) => pyIntChar c

/-- Resource categories deleted by `rcluster._ec2_purge`
(`rcluster.py` lines 374-418), in source order. -/
inductive PurgeStep where
  | instances
  | image
  | keypair
  | placementGroup
  | securityGroup
deriving DecidableEq, Repr

/-- Outcomes of the five provider-side deletion calls made by
`_ec2_purge`: `none` means the call returns normally, `some e` means it
raises `e`. -/
structure PurgeEnv where
  terminateRes : Option PyErr
  deregisterRes : Option PyErr
  keypairRes : Option PyErr
  placementRes : Option PyErr
  sgRes : Option PyErr
deriving DecidableEq, Repr

/-- The source order of the five deletion categories in `_ec2_purge`. -/
def purgeOrder : List PurgeStep :=
  [PurgeStep.instances, PurgeStep.image, PurgeStep.keypair,
   PurgeStep.placementGroup, PurgeStep.securityGroup]

/-- Embedding of `rcluster._ec2_purge` (`rcluster.py` lines 374-418).
The five deletions are issued one after the other with no exception
handling around any of them; the function returns the list of
categories whose deletion call was actually reached, and the error
raised out of the function, if any. -/
def ec2Purge (env : PurgeEnv) : List PurgeStep × Option PyErr :=
  match env.terminateRes with
  | some e => ([PurgeStep.instances], some e)
  | none =>
  match env.deregisterRes with
  | some e => ([PurgeStep.instances, PurgeStep.image], some e)
  | none =>
  match env.keypairRes with
  | some e => ([PurgeStep.instances, PurgeStep.image, PurgeStep.keypair], some e)
  | none =>
  match env.placementRes with
  | some e => ([PurgeStep.instances, PurgeStep.image, PurgeStep.keypair,
                PurgeStep.placementGroup], some e)
  | none =>
  match env.sgRes with
  | some e => (purgeOrder, some e)
  | none => (purgeOrder, none)

/-- Outcome of one `client.connect` attempt inside
`pmkutils.pmkConnect`: success with a session, one of the three caught
transient connection errors, or any other (fatal) error. -/
inductive ConnOutcome where
  | ok (sess : Nat)
  | timeoutErr
  | connectionRefused
  | noValidConnections
  | fatal (e : PyErr)
deriving DecidableEq, Repr

/-- The connection errors caught and retried by `pmkConnect`
(`pmkutils.py` lines 29-33): `TimeoutError`, `ConnectionRefusedError`
and `paramiko.ssh_exception.NoValidConnectionsError`. -/
def isTransient : ConnOutcome → Bool
  | ConnOutcome.timeoutErr => true
  | ConnOutcome.connectionRefused => true
  | ConnOutcome.noValidConnections => true
  | _ => false

/-- The fixed backoff, in seconds, slept before each retry
(`sleep(15)`, `pmkutils.py` line 32). -/
def connectBackoff : Nat := 15

/-- Embedding of `pmkutils.pmkConnect` (`pmkutils.py` lines 12-36).
`attempt n` is the outcome of the n-th `client.connect` call.  On a
transient outcome the code sleeps 15 seconds and calls itself again; on
success it returns the session; on any other error it re-raises.  The
Python recursion has no retry cap, so the embedding is indexed by
`fuel`: `none` means the code is still retrying after `fuel` attempts.
On termination the result also reports the total seconds slept in
backoff, `connectBackoff * (number of retries)`. -/
def pmkConnect (attempt : Nat → ConnOutcome) : Nat → Nat → Option (Except PyErr Nat × Nat)
  | 0, _ => none
  | fuel + 1, n =>
    match attempt n with
    | ConnOutcome.ok s => some (Except.ok s, connectBackoff * n)
    | ConnOutcome.timeoutErr => pmkConnect attempt fuel (n + 1)
    | ConnOutcome.connectionRefused => pmkConnect attempt fuel (n + 1)
    | ConnOutcome.noValidConnections => pmkConnect attempt fuel (n + 1)
    | ConnOutcome.fatal e => some (Except.error e, connectBackoff * n)

/-- Values sitting directly inside the `instance_conf` dictionary:
strings (AMI id, instance type, ...), the `SecurityGroups` list of
group names, the `Placement` sub-dictionary, or JSON null. -/
inductive JLeaf where
  | null
  | str (s : String)
  | strList (l : List String)
  | strDict (d : List (String × String))
deriving DecidableEq, Repr

/-- Values stored in the `_config` snapshot dictionary: JSON null, a
string, or the `instance_conf` dictionary. -/
inductive JVal where
  | null
  | str (s : String)
  | dict (d : List (String × JLeaf))
deriving DecidableEq, Repr

/-- Python truthiness of a `JVal` (`None` and empty containers are
falsy). -/
def truthy : JVal → Bool
  | JVal.null => false
  | JVal.str s => !s.isEmpty
  | JVal.dict d => !d.isEmpty

/-- Dictionary lookup on an association list keyed by strings. -/
def alookup {α : Type} (l : List (String × α)) (k : String) : Option α :=
  match l with
  | [] => none
  | (k1, v1) :: t => if k1 == k then some v1 else alookup t k

/-- Python dictionary assignment `d[k] = v` on an association list:
replace the first binding of `k` if present, otherwise append. -/
def aset {α : Type} (l : List (String × α)) (k : String) (v : α) : List (String × α) :=
  match l with
  | [] => [(k, v)]
  | (k1, v1) :: t => if k1 == k then (k, v) :: t else (k1, v1) :: aset t k v

/-- Python membership test `k in d` on an association list. -/
def hasKey {α : Type} (l : List (String × α)) (k : String) : Bool :=
  (alookup l k).isSome

/-- The constructor parameters of `RCluster.__init__` after
`self._kwargs.remove('purge')` (`rcluster.py` lines 27-30 and 54-55):
exactly these attribute names are mirrored into `_config` by
`__setattr__`. -/
def rclusterKwargs : List String :=
  ["aws_access_key_id", "aws_secret_access_key", "region_name",
   "instance_conf", "manager_runtime", "worker_runtime", "key_path",
   "ip_ref", "ver"]

/-- Arguments accepted by `RCluster.__init__` (minus `purge`, which is
never recorded).  `instance_conf` is typed as a dictionary because the
constructor indexes into it. -/
structure InitArgs where
  aws_access_key_id : JVal
  aws_secret_access_key : JVal
  region_name : JVal
  instance_conf : List (String × JLeaf)
  manager_runtime : JVal
  worker_runtime : JVal
  key_path : JVal
  ip_ref : JVal
  ver : JVal
deriving DecidableEq, Repr

/-- String content of a `JVal`, used where the source passes the value
to a provider API expecting a string (for example `ver` as a group
name). -/
def jvalStr : JVal → String
  | JVal.str s => s
  | _ => ""

/-- The `key_path` value after the constructor's key bootstrap
(`rcluster.py` lines 67-74): a falsy `key_path` argument is replaced
by the path `rcl._set_data('pem')` where the freshly created key
material is written. -/
def initKeyPath (a : InitArgs) (genKeyPath : String) : JVal :=
  if truthy a.key_path then a.key_path else JVal.str genKeyPath

/-- The `instance_conf` dictionary after the constructor's
security-group and placement-group bootstrap (`rcluster.py` lines
76-92): a missing `'SecurityGroups'` entry is created as the list
`[ver]`, a missing `'Placement'` entry as the group reference named
`ver`. -/
def initIC (a : InitArgs) : List (String × JLeaf) :=
  let ic1 := if hasKey a.instance_conf "SecurityGroups" then a.instance_conf
    else aset a.instance_conf "SecurityGroups" (JLeaf.strList [jvalStr a.ver])
  if hasKey ic1 "Placement" then ic1
  else aset ic1 "Placement" (JLeaf.strDict [("GroupName", jvalStr a.ver)])

/-- The `_config` snapshot produced by `RCluster.__init__`
(`rcluster.py` lines 54-95) from its arguments: after the key and
network bootstraps, every name in `_kwargs` is assigned through
`__setattr__` (lines 94-95), landing the possibly updated local values
in `_config`. -/
def rinitConfig (a : InitArgs) (genKeyPath : String) : List (String × JVal) :=
  let kp := initKeyPath a genKeyPath
  let ic2 := initIC a
  [("aws_access_key_id", a.aws_access_key_id),
   ("aws_secret_access_key", a.aws_secret_access_key),
   ("region_name", a.region_name),
   ("instance_conf", JVal.dict ic2),
   ("manager_runtime", a.manager_runtime),
   ("worker_runtime", a.worker_runtime),
   ("key_path", kp),
   ("ip_ref", a.ip_ref),
   ("ver", a.ver)]

/-- Embedding of `RCluster.write_config` (`rcluster.py` lines 116-122):
`json.dump(self._config, ...)`.  On the value universe of `_config`
(strings, nulls and string-valued dictionaries) dumping followed by
`json.load` is the identity, so the persisted snapshot is the snapshot
itself. -/
def writeConfig (c : List (String × JVal)) : List (String × JVal) := c

/-- The prompting loop of `RCluster.from_config` (`rcluster.py` lines
137-139): every top-level `null` value is replaced by the string typed
at the interactive prompt for that key. -/
def resolveNulls : List (String × JVal) → (String → String) → List (String × JVal)
  | [], _ => []
  | (k1, v1) :: t, prompt =>
    if v1 = JVal.null then (k1, JVal.str (prompt k1)) :: resolveNulls t prompt
    else (k1, v1) :: resolveNulls t prompt

/-- The effect of the prompting loop on a single entry: a `null` value
is replaced by the prompted string, any other value is kept. -/
def resVal (prompt : String → String) (k : String) (v : JVal) : JVal :=
  if v = JVal.null then JVal.str (prompt k) else v

/-- The constructor arguments bound by `RCluster(**dic)` when `dic` is
the prompt-resolved snapshot of a construction from `a` with generated
key path `g`: every plain field is its resolved old value, while
`instance_conf` and `key_path` are the already-bootstrapped values,
which are never `null` and hence never prompted. -/
def reloadedArgs (a : InitArgs) (g : String) (prompt : String → String) : InitArgs :=
  { aws_access_key_id := resVal prompt "aws_access_key_id" a.aws_access_key_id,
    aws_secret_access_key := resVal prompt "aws_secret_access_key" a.aws_secret_access_key,
    region_name := resVal prompt "region_name" a.region_name,
    instance_conf := initIC a,
    manager_runtime := resVal prompt "manager_runtime" a.manager_runtime,
    worker_runtime := resVal prompt "worker_runtime" a.worker_runtime,
    key_path := initKeyPath a g,
    ip_ref := resVal prompt "ip_ref" a.ip_ref,
    ver := resVal prompt "ver" a.ver }

/-- Reconstruction of the constructor arguments from a loaded
configuration dictionary, as performed by `RCluster(**dic)`
(`rcluster.py` line 140): each parameter is bound by name;
`instance_conf` must be a dictionary for the constructor's indexing to
succeed. -/
def toInitArgs (c : List (String × JVal)) : Option InitArgs :=
  match alookup c "aws_access_key_id", alookup c "aws_secret_access_key",
        alookup c "region_name", alookup c "instance_conf",
        alookup c "manager_runtime", alookup c "worker_runtime",
        alookup c "key_path", alookup c "ip_ref", alookup c "ver" with
  | some a1, some a2, some a3, some (JVal.dict ic), some mr, some wr,
    some kp, some ipr, some v =>
      some (InitArgs.mk a1 a2 a3 ic mr wr kp ipr v)
  | _, _, _, _, _, _, _, _, _ => none

/-- Embedding of `RCluster.from_config` with no overrides
(`rcluster.py` lines 124-140): load the JSON snapshot, prompt for
`null` values, and hand the result to the constructor. -/
def fromConfig (c : List (String × JVal)) (prompt : String → String) : Option InitArgs :=
  toInitArgs (resolveNulls c prompt)

/-- In-memory state of an `RCluster` object as far as attribute
assignment is concerned: whether `_config` exists in `__dict__` yet,
the plain attribute dictionary, and the `_config` snapshot
dictionary. -/
structure RCState where
  hasConfig : Bool
  attrs : List (String × JVal)
  config : List (String × JVal)
deriving DecidableEq, Repr

/-- Embedding of `RCluster.__setattr__` (`rcluster.py` lines 102-114):
every assignment lands in `__dict__`; it is additionally mirrored into
`_config` exactly when `_config` already exists and the attribute name
is one of the recorded constructor parameters (`self._kwargs`). -/
def setattrModel (s : RCState) (key : String) (v : JVal) : RCState :=
  { hasConfig := s.hasConfig,
    attrs := aset s.attrs key v,
    config := if s.hasConfig && rclusterKwargs.contains key then aset s.config key v
      else s.config }

/-- Mutation of the `ImageId` entry of an `instance_conf` dictionary
value, leaving other values unchanged. -/
def setImageId (imgId : String) : JVal → JVal
  | JVal.dict d => JVal.dict (aset d "ImageId" (JLeaf.str imgId))
  | v => v

/-- Replacement of the value bound to `k` by `f` applied to it. -/
def updVal : List (String × JVal) → String → (JVal → JVal) → List (String × JVal)
  | [], _, _ => []
  | (k1, v1) :: t, k, f =>
    if k1 == k then (k1, f v1) :: updVal t k f
    else (k1, v1) :: updVal t k f

/-- Embedding of `self.instance_conf['ImageId'] = image.id` in
`RCluster.create_ami` (`rcluster.py` line 329).  This is an in-place
mutation of the dictionary object; because `self.instance_conf` and
`self._config['instance_conf']` reference the same dictionary (the
constructor stored the very object into `_config`), the mutation is
visible through both, which the embedding renders by updating both
views. -/
def createAmiUpdateImage (s : RCState) (imgId : String) : RCState :=
  { hasConfig := s.hasConfig,
    attrs := updVal s.attrs "instance_conf" (setImageId imgId),
    config := updVal s.config "instance_conf" (setImageId imgId) }

/-- An EC2 instance as the cluster code uses it: an identity and a
private IP address. -/
structure Instance where
  id : Nat
  privateIp : String
deriving DecidableEq, Repr

/-- Remote behaviour of one instance during configuration: the result
of the CPU-introspection command and the result of the role's runtime
command on that host. -/
structure Remote where
  cpuRes : RemoteResult
  runtimeRes : RemoteResult
deriving DecidableEq, Repr

/-- Python string repetition `s * n`. -/
def pyRepeat (s : String) : Nat → String
  | 0 => ""
  | n + 1 => s ++ pyRepeat s n

/-- The hostfile block contributed by one instance:
`(instance.private_ip_address + chr(10)) * cpus`
(`rcluster.py` line 218). -/
def ipLines (ip : String) (cpus : Nat) : String :=
  pyRepeat (ip ++ "\n") cpus

/-- Embedding of `RCluster._configure_instance` (`rcluster.py` lines
213-220) for one instance: connect, query the CPU count with
`cpu_count`, append the IP block to the shared hostfile under the
lock, then run the role's runtime command when one is configured.
Returns the hostfile after the call together with the exception the
call raises, if any.  A failed CPU query leaves the hostfile
untouched; a failed runtime command happens after the append, so the
block stays. -/
def configureInstance (env : Instance → Remote) (hasRuntime : Bool)
    (hostfile : String) (inst : Instance) : String × Option PyErr :=
  match cpuCount (env inst).cpuRes with
  | Except.error e => (hostfile, some e)
  | Except.ok cpus =>
    let hf := hostfile ++ ipLines inst.privateIp cpus
    if hasRuntime then
      match pmkCmd (env inst).runtimeRes with
      | Except.error e => (hf, some e)
      | Except.ok _ => (hf, none)
    else (hf, none)

/-- The worker-configuration phase of `RCluster.create_cluster`
(`rcluster.py` lines 190-202): one thread per worker runs
`_configure_instance`; the lock serialises the hostfile appends, and
`order` is the sequence in which the workers acquire it.  A thread
that raises dies with its exception unobserved — `Thread.join` returns
normally — so worker errors never reach the enclosing `try` block and
only the hostfile effect of each worker survives. -/
def runWorkers (env : Instance → Remote) (hasRuntime : Bool)
    (order : List Instance) (hostfile : String) : String :=
  order.foldl (fun h w => (configureInstance env hasRuntime h w).1) hostfile

/-- Observable outcome of one `create_cluster` call: how many
instances the call launched, which instances received the
`(ver, manager)` tag, the recorded manager private IP, the hostfile
built, the workers configured by threads, whether the call terminated
every launched instance, the exception re-raised to the caller, and
the instance list recorded as the active cluster (also the return
value on success). -/
structure CCResult where
  launched : Nat
  managerTagged : List Instance
  managerPrivate : Option String
  hostfile : String
  workersConfigured : List Instance
  terminatedAll : Bool
  raised : Option PyErr
  recorded : Option (List Instance)
deriving DecidableEq, Repr

/-- The body of `create_cluster` past the short-circuit (`rcluster.py`
lines 180-211): launch `n_workers + 1` instances (`fresh` is the batch
the provider returns), take the first as manager and the rest as
workers, tag the manager, record its private IP, build the hostfile by
the parallel worker threads followed by the manager's own
configuration in the main thread, and on an exception in the main
thread terminate every instance of the batch and re-raise. -/
def createClusterFresh (fresh order : List Instance) (env : Instance → Remote)
    (workerRt managerRt : Bool) : CCResult :=
  match fresh with
  | [] =>
    { launched := 0, managerTagged := [], managerPrivate := none,
      hostfile := "", workersConfigured := [], terminatedAll := true,
      raised := some PyErr.indexError, recorded := none }
  | manager :: workers =>
    let res := configureInstance env managerRt (runWorkers env workerRt order "") manager
    match res.2 with
    | some e =>
      { launched := workers.length + 1, managerTagged := [manager],
        managerPrivate := some manager.privateIp, hostfile := res.1,
        workersConfigured := order, terminatedAll := true,
        raised := some e, recorded := none }
    | none =>
      { launched := workers.length + 1, managerTagged := [manager],
        managerPrivate := some manager.privateIp, hostfile := res.1,
        workersConfigured := order, terminatedAll := false,
        raised := none, recorded := some (manager :: workers) }

/-- Embedding of `RCluster.create_cluster` (`rcluster.py` lines
167-211).  `st` is the controller's current `rcluster` record (`none`
when the attribute is absent): a truthy record short-circuits the call
and is returned unchanged with nothing launched (lines 176-179);
otherwise the fresh batch is processed by `createClusterFresh`. -/
def createCluster (st : Option (List Instance)) (fresh order : List Instance)
    (env : Instance → Remote) (workerRt managerRt : Bool) : CCResult :=
  match st with
  | some (x :: t) =>
    { launched := 0, managerTagged := [], managerPrivate := none,
      hostfile := "", workersConfigured := [], terminatedAll := false,
      raised := none, recorded := some (x :: t) }
  | some [] => createClusterFresh fresh order env workerRt managerRt
  | none => createClusterFresh fresh order env workerRt managerRt

/-- Number of newline characters in a string; each hostfile entry ends
in exactly one newline, so for newline-free IPs this is the line
count. -/
def countNL (s : String) : Nat :=
  s.data.count '\n'

/-- Concatenation of the hostfile blocks of a list of instances with
prescribed CPU counts, in list order. -/
def blocksOf (cpu : Instance → Nat) : List Instance → String
  | [] => ""
  | w :: t => ipLines w.privateIp (cpu w) ++ blocksOf cpu t

/-- Result shape of `RCluster.get_manager` (`rcluster.py` lines
232-253): a single `Instance` object, a list of instances, or Python
`None`. -/
inductive ManagerResult where
  | inst (i : Instance)
  | list (l : List Instance)
  | nothing
deriving DecidableEq, Repr

/-- State consulted by `get_manager`: the controller's in-process
`rcluster` record (`none` when the attribute was never set) and the
provider-side query result for manager-tagged running or pending
instances. -/
structure MState where
  rcluster : Option (List Instance)
  tagQuery : List Instance
deriving DecidableEq, Repr

/-- The tag-filter branch of `get_manager` (`rcluster.py` lines
241-253): a non-empty query result is returned as the list itself,
an empty one as `None`. -/
def tagLookup (s : MState) : ManagerResult :=
  match s.tagQuery with
  | [] => ManagerResult.nothing
  | x :: t => ManagerResult.list (x :: t)

/-- Embedding of `RCluster.get_manager` (`rcluster.py` lines 232-253):
a truthy in-process record returns `self.rcluster[0]`, a single
`Instance`; otherwise the tag query decides between a non-empty list
and `None`. -/
def getManager (s : MState) : ManagerResult :=
  match s.rcluster with
  | some (x :: _) => ManagerResult.inst x
  | some [] => tagLookup s
  | none => tagLookup s

/-- Python truthiness of a `get_manager` result: an `Instance` object
is truthy, a list is truthy when non-empty, `None` is falsy. -/
def mrTruthy : ManagerResult → Bool
  | ManagerResult.inst _ => true
  | ManagerResult.list l => !l.isEmpty
  | ManagerResult.nothing => false

/-- Python subscription `manager[0]` applied to a `get_manager`
result: a boto3 `Instance` object is not subscriptable, so the
single-instance shape raises `TypeError`; a non-empty list yields its
first element. -/
def pySubscript0 : ManagerResult → Except PyErr Instance
  | ManagerResult.inst _ => Except.error (PyErr.typeError "not subscriptable")
  | ManagerResult.list [] => Except.error PyErr.indexError
  | ManagerResult.list (x :: _) => Except.ok x
  | ManagerResult.nothing => Except.error (PyErr.typeError "not subscriptable")

/-- Embedding of `RCluster.get_manager_ip` (`rcluster.py` lines
255-261): call `get_manager`, and when the result is truthy read
`getattr(manager[0], self.ip_ref)` — always subscripting with `[0]`
first.  `ipRef` is the configured IP selector. -/
def getManagerIp (s : MState) (ipRef : Instance → String) : Except PyErr (Option String) :=
  let m := getManager s
  if mrTruthy m then
    match pySubscript0 m with
    | Except.error e => Except.error e
    | Except.ok i => Except.ok (some (ipRef i))
  else Except.ok none

/-- A remote command that exits 0 with no output. -/
def okRun : RemoteResult :=
  { stdout := "", stderr := "", exitStatus := 0 }

/-- Concrete manager instance for the cluster-creation scenarios. -/
def instM : Instance :=
  { id := 1, privateIp := "10.0.0.1" }

/-- Concrete worker instance for the cluster-creation scenarios. -/
def instW : Instance :=
  { id := 2, privateIp := "10.0.0.2" }

/-- Scenario environment for the hostfile line-count claims: the
worker reports 4 CPUs, the manager reports 2, both runtime commands
succeed. -/
def envHost : Instance → Remote :=
  fun i =>
    if i.id = 2 then
      { cpuRes := { stdout := "4\n", stderr := "", exitStatus := 0 }, runtimeRes := okRun }
    else
      { cpuRes := { stdout := "2\n", stderr := "", exitStatus := 0 }, runtimeRes := okRun }

/-- Scenario environment for the configuration-failure claim: the
worker's CPU introspection prints a non-numeric line, so
`int(cpus[0])` raises `ValueError` inside the worker thread; the
manager behaves normally. -/
def envBadWorker : Instance → Remote :=
  fun i =>
    if i.id = 2 then
      { cpuRes := { stdout := "x\n", stderr := "", exitStatus := 0 }, runtimeRes := okRun }
    else
      { cpuRes := { stdout := "2\n", stderr := "", exitStatus := 0 }, runtimeRes := okRun }

/-- Concrete constructor arguments for the configuration scenarios. -/
def argsA : InitArgs :=
  { aws_access_key_id := JVal.str "AKIA",
    aws_secret_access_key := JVal.str "SECRET",
    region_name := JVal.str "us-east-1",
    instance_conf := [("ImageId", JLeaf.str "ami-1"), ("InstanceType", JLeaf.str "m4.large")],
    manager_runtime := JVal.str "Rscript runtime.R",
    worker_runtime := JVal.null,
    key_path := JVal.str "/home/u/.rcluster/0.2.21.pem",
    ip_ref := JVal.str "public_ip_address",
    ver := JVal.str "0.2.21" }

/-- Concrete post-constructor object state for the snapshot-mirroring
scenarios: `_config` exists and holds the constructor-produced
snapshot, and the attribute dictionary holds the same bindings. -/
def stateA : RCState :=
  { hasConfig := true,
    attrs := rinitConfig argsA "/home/u/.rcluster/0.2.21.pem",
    config := rinitConfig argsA "/home/u/.rcluster/0.2.21.pem" }

/-- Purge environment in which terminating the tagged instances
raises and every other deletion call would succeed. -/
def envPurgeFail : PurgeEnv :=
  { terminateRes := some (PyErr.exception "terminate failed"),
    deregisterRes := none, keypairRes := none,
    placementRes := none, sgRes := none }

/-- Purge environment in which every deletion call succeeds. -/
def envPurgeOk : PurgeEnv :=
  { terminateRes := none, deregisterRes := none, keypairRes := none,
    placementRes := none, sgRes := none }

/-- Connection-attempt trace for the retry scenario: the first two
attempts time out or are refused, the third succeeds with session 7. -/
def attemptW : Nat → ConnOutcome :=
  fun n =>
    if n = 0 then ConnOutcome.timeoutErr
    else if n = 1 then ConnOutcome.connectionRefused
    else ConnOutcome.ok 7

theorem alookup_aset {α : Type} (l : List (String × α)) (k k2 : String) (v : α) :
    alookup (aset l k v) k2 = if k = k2 then some v else alookup l k2 := by
  induction l with
  | nil => simp [aset, alookup, beq_iff_eq]
  | cons p t ih =>
    obtain ⟨k1, v1⟩ := p
    by_cases h1 : k1 = k
    · subst h1
      by_cases h2 : k1 = k2 <;> simp [aset, alookup, beq_iff_eq, h2]
    · by_cases h2 : k1 = k2
      · subst h2
        have hne : ¬(k = k1) := fun h => h1 h.symm
        simp [aset, alookup, beq_iff_eq, h1, hne]
      · simp [aset, alookup, beq_iff_eq, h1, h2, ih]

theorem alookup_aset_self {α : Type} (l : List (String × α)) (k : String) (v : α) :
    alookup (aset l k v) k = some v := by
  simp [alookup_aset]

theorem hasKey_aset_self {α : Type} (l : List (String × α)) (k : String) (v : α) :
    hasKey (aset l k v) k = true := by
  simp [hasKey, alookup_aset_self]

theorem hasKey_aset_of {α : Type} (l : List (String × α)) (k k2 : String) (v : α)
    (h : hasKey l k2 = true) : hasKey (aset l k v) k2 = true := by
  by_cases hk : k = k2
  · subst hk; exact hasKey_aset_self l k v
  · simpa [hasKey, alookup_aset, hk] using h

theorem hasKey_initIC_sg (a : InitArgs) : hasKey (initIC a) "SecurityGroups" = true := by
  unfold initIC
  by_cases h1 : hasKey a.instance_conf "SecurityGroups" = true
  · by_cases h2 : hasKey a.instance_conf "Placement" = true <;>
      simp [h1, h2, hasKey_aset_of]
  · have h1f : hasKey a.instance_conf "SecurityGroups" = false := by
      simpa using h1
    by_cases h2 : hasKey (aset a.instance_conf "SecurityGroups"
        (JLeaf.strList [jvalStr a.ver])) "Placement" = true <;>
      simp [h1f, h2, hasKey_aset_self, hasKey_aset_of]

theorem hasKey_initIC_pl (a : InitArgs) : hasKey (initIC a) "Placement" = true := by
  unfold initIC
  by_cases h1 : hasKey a.instance_conf "SecurityGroups" = true
  · by_cases h2 : hasKey a.instance_conf "Placement" = true <;>
      simp [h1, h2, hasKey_aset_self]
  · have h1f : hasKey a.instance_conf "SecurityGroups" = false := by
      simpa using h1
    by_cases h2 : hasKey (aset a.instance_conf "SecurityGroups"
        (JLeaf.strList [jvalStr a.ver])) "Placement" = true <;>
      simp [h1f, h2, hasKey_aset_self]

theorem initIC_stable (a : InitArgs)
    (h1 : hasKey a.instance_conf "SecurityGroups" = true)
    (h2 : hasKey a.instance_conf "Placement" = true) :
    initIC a = a.instance_conf := by
  simp [initIC, h1, h2]

theorem truthy_ne_null (v : JVal) (h : truthy v = true) : v ≠ JVal.null := by
  intro he
  subst he
  simp [truthy] at h

theorem truthy_initKeyPath (a : InitArgs) (g : String) (hg : g.isEmpty = false) :
    truthy (initKeyPath a g) = true := by
  unfold initKeyPath
  cases h : truthy a.key_path
  · simp [h, truthy, hg]
  · simp [h]

theorem initKeyPath_stable (a : InitArgs) (g : String)
    (h : truthy a.key_path = true) : initKeyPath a g = a.key_path := by
  simp [initKeyPath, h]

theorem alookup_updVal (l : List (String × JVal)) (k : String) (f : JVal → JVal) :
    alookup (updVal l k f) k = (alookup l k).map f := by
  induction l with
  | nil => rfl
  | cons p t ih =>
    obtain ⟨k1, v1⟩ := p
    cases hb : (k1 == k) <;> simp [updVal, alookup, hb, ih]

theorem alookup_resolveNulls (c : List (String × JVal)) (prompt : String → String)
    (k : String) (v : JVal) (hv : alookup c k = some v) (hnn : v ≠ JVal.null) :
    alookup (resolveNulls c prompt) k = some v := by
  induction c with
  | nil => cases hv
  | cons p t ih =>
    obtain ⟨k1, v1⟩ := p
    cases hb : (k1 == k)
    · simp [alookup, hb] at hv
      by_cases hn : v1 = JVal.null <;> simp [resolveNulls, alookup, hb, hn, ih hv]
    · simp [alookup, hb] at hv
      subst hv
      simp [resolveNulls, alookup, hb, hnn]

theorem countNL_append (a b : String) : countNL (a ++ b) = countNL a + countNL b := by
  simp [countNL, String.data_append, List.count_append]

theorem countNL_pyRepeat (s : String) (n : Nat) :
    countNL (pyRepeat s n) = n * countNL s := by
  induction n with
  | zero =>
    show countNL "" = 0 * countNL s
    rw [Nat.zero_mul]
    rfl
  | succ j ih =>
    show countNL (s ++ pyRepeat s j) = (j + 1) * countNL s
    rw [countNL_append, ih]
    ring

theorem countNL_newline : countNL "\n" = 1 := rfl

theorem countNL_ipLines (ip : String) (n : Nat) (h : countNL ip = 0) :
    countNL (ipLines ip n) = n := by
  rw [ipLines, countNL_pyRepeat, countNL_append, h, countNL_newline]
  ring

theorem countNL_blocksOf (cpu : Instance → Nat) (l : List Instance)
    (h : ∀ w ∈ l, countNL w.privateIp = 0) :
    countNL (blocksOf cpu l) = (l.map cpu).sum := by
  induction l with
  | nil => rfl
  | cons w t ih =>
    rw [blocksOf, countNL_append, countNL_ipLines _ _ (h w (List.mem_cons_self w t)),
        ih (fun x hx => h x (List.mem_cons_of_mem w hx))]
    simp

theorem configureInstance_fst_ok (env : Instance → Remote) (rt : Bool) (hf : String)
    (w : Instance) (cpus : Nat) (h : cpuCount (env w).cpuRes = Except.ok cpus) :
    (configureInstance env rt hf w).1 = hf ++ ipLines w.privateIp cpus := by
  unfold configureInstance
  rw [h]
  cases rt
  · simp
  · cases hp : pmkCmd (env w).runtimeRes <;> simp [hp]

theorem runWorkers_ok (env : Instance → Remote) (rt : Bool) (cpu : Instance → Nat) :
    ∀ (order : List Instance) (hf : String),
      (∀ w ∈ order, cpuCount (env w).cpuRes = Except.ok (cpu w)) →
      runWorkers env rt order hf = hf ++ blocksOf cpu order := by
  intro order
  induction order with
  | nil =>
    intro hf h
    show hf = hf ++ blocksOf cpu []
    rw [blocksOf, String.append_empty]
  | cons w t ih =>
    intro hf h
    have hw : cpuCount (env w).cpuRes = Except.ok (cpu w) := h w (List.mem_cons_self w t)
    have ht : ∀ x ∈ t, cpuCount (env x).cpuRes = Except.ok (cpu x) :=
      fun x hx => h x (List.mem_cons_of_mem w hx)
    have step : runWorkers env rt (w :: t) hf
        = runWorkers env rt t ((configureInstance env rt hf w).1) := rfl
    rw [step, configureInstance_fst_ok env rt hf w (cpu w) hw, ih _ ht, blocksOf,
        String.append_assoc]

theorem createClusterFresh_cons (manager : Instance) (workers order : List Instance)
    (env : Instance → Remote) (wrt mrt : Bool) :
    createClusterFresh (manager :: workers) order env wrt mrt =
    { launched := workers.length + 1, managerTagged := [manager],
      managerPrivate := some manager.privateIp,
      hostfile := (configureInstance env mrt (runWorkers env wrt order "") manager).1,
      workersConfigured := order,
      terminatedAll := (configureInstance env mrt (runWorkers env wrt order "") manager).2.isSome,
      raised := (configureInstance env mrt (runWorkers env wrt order "") manager).2,
      recorded :=
        if (configureInstance env mrt (runWorkers env wrt order "") manager).2.isSome
        then none else some (manager :: workers) } := by
  simp only [createClusterFresh]
  cases h : (configureInstance env mrt (runWorkers env wrt order "") manager).2 <;> simp [h]

theorem pmkConnect_transient_step (attempt : Nat → ConnOutcome) (fuel n : Nat)
    (h : isTransient (attempt n) = true) :
    pmkConnect attempt (fuel + 1) n = pmkConnect attempt fuel (n + 1) := by
  cases ha : attempt n with
  | ok s => rw [ha] at h; simp [isTransient] at h
  | fatal e => rw [ha] at h; simp [isTransient] at h
  | timeoutErr => simp [pmkConnect, ha]
  | connectionRefused => simp [pmkConnect, ha]
  | noValidConnections => simp [pmkConnect, ha]

theorem pmkConnect_skip (attempt : Nat → ConnOutcome) :
    ∀ (k fuel n : Nat), (∀ m, m < k → isTransient (attempt (n + m)) = true) →
      pmkConnect attempt (fuel + k) n = pmkConnect attempt fuel (n + k) := by
  intro k
  induction k with
  | zero => intro fuel n _; rfl
  | succ j ih =>
    intro fuel n h
    have h0 : isTransient (attempt n) = true := by
      have := h 0 (Nat.succ_pos j)
      simpa using this
    have hstep : pmkConnect attempt (fuel + j + 1) n = pmkConnect attempt (fuel + j) (n + 1) :=
      pmkConnect_transient_step attempt (fuel + j) n h0
    have hshift : ∀ m, m < j → isTransient (attempt (n + 1 + m)) = true := by
      intro m hm
      have := h (m + 1) (Nat.succ_lt_succ hm)
      have he : n + (m + 1) = n + 1 + m := by omega
      rwa [he] at this
    have htail := ih fuel (n + 1) hshift
    have he1 : fuel + (j + 1) = fuel + j + 1 := by omega
    have he2 : n + 1 + j = n + (j + 1) := by omega
    rw [he1, hstep, htail, he2]

/-- Claim C4, divergence witness: `cpuCount` does not return the
multi-digit CPU count `k` printed by the introspection command.  On a
remote with 16 CPUs the command prints the single line consisting of a
one and a six followed by a newline, and `cpuCount` returns 1 — the
integer value of the first character of the character-accumulated
output — not 16; on a single-digit count such as 2 it returns that
count, which is the behaviour the code's own comment documents. -/
theorem cpu_count_multidigit_truncated :
    cpuCount { stdout := "16\n", stderr := "", exitStatus := 0 } = Except.ok 1
    ∧ cpuCount { stdout := "2\n", stderr := "", exitStatus := 0 } = Except.ok 2
    ∧ cpuCount { stdout := "x\n", stderr := "", exitStatus := 0 }
        = Except.error (PyErr.valueError "invalid literal for int() with base 10")
    ∧ (1 : Nat) ≠ 16 :=
  ⟨rfl, rfl, rfl, by decide⟩

/-- Claim C5, counterexample: the error raised by `pmkCmd` on a
non-zero exit status does not carry the remote exit code — commands
with identical stderr but exit statuses 1 and 2 raise the very same
error value — and on a zero exit status the function returns the flat
character list of the captured stdout (three characters for one line
of two letters plus newline), not the list of standard-output
lines. -/
theorem pmk_cmd_error_lacks_exit_code :
    pmkCmd { stdout := "", stderr := "boom", exitStatus := 1 }
      = Except.error (PyErr.exception "boom")
    ∧ pmkCmd { stdout := "", stderr := "boom", exitStatus := 1 }
      = pmkCmd { stdout := "", stderr := "boom", exitStatus := 2 }
    ∧ (1 : Nat) ≠ 2
    ∧ pmkCmd { stdout := "ab\n", stderr := "", exitStatus := 0 }
      = Except.ok ['a', 'b', '\n']
    ∧ (['a', 'b', '\n'] : List Char).length = 3 :=
  ⟨rfl, rfl, by decide, rfl, rfl⟩

/-- Claim C5 as amended: `pmkCmd` raises an error exactly when the
remote exit status is non-zero; the raised error carries the captured
stderr text (and only that — in particular the scenario of a command
exiting 1 with stderr text containing a given message raises an error
containing that text); on a zero exit status it returns the captured
standard output as its list of characters. -/
theorem pmk_cmd_behavior (r : RemoteResult) :
    ((∃ e, pmkCmd r = Except.error e) ↔ r.exitStatus ≠ 0)
    ∧ (∀ e, pmkCmd r = Except.error e → e = PyErr.exception r.stderr)
    ∧ (∀ l, pmkCmd r = Except.ok l → l = r.stdout.data) := by
  unfold pmkCmd
  by_cases h : r.exitStatus = 0 <;> simp [h]

/-- Witness for `pmk_cmd_behavior` at a command exiting 1 with stderr
text "boom". -/
theorem pmk_cmd_behavior_witness :
    ∃ e, pmkCmd { stdout := "", stderr := "boom", exitStatus := 1 } = Except.error e :=
  (pmk_cmd_behavior { stdout := "", stderr := "boom", exitStatus := 1 }).1.mpr (by decide)

/-- Claim C6, counterexample: when terminating the tagged instances
raises, `_ec2_purge` propagates the error immediately and never
attempts the image deregistration or the security-group deletion — the
five deletions are not independent. -/
theorem purge_not_independent :
    (ec2Purge envPurgeFail).2 = some (PyErr.exception "terminate failed")
    ∧ (ec2Purge envPurgeFail).1 = [PurgeStep.instances]
    ∧ PurgeStep.image ∉ (ec2Purge envPurgeFail).1
    ∧ PurgeStep.keypair ∉ (ec2Purge envPurgeFail).1
    ∧ PurgeStep.placementGroup ∉ (ec2Purge envPurgeFail).1
    ∧ PurgeStep.securityGroup ∉ (ec2Purge envPurgeFail).1 := by
  decide

/-- Claim C6 as amended: `_ec2_purge` performs the five deletions
strictly in source order with no per-category error handling: when
every call succeeds all five categories are attempted and nothing is
raised; the first failing category aborts the purge, its error
propagates, and the remaining categories are never attempted (the
attempted list is always a prefix of the category order). -/
theorem purge_sequential_order (env : PurgeEnv) :
    ((ec2Purge env).2 = none → ec2Purge env = (purgeOrder, none))
    ∧ (∀ e, env.terminateRes = some e → ec2Purge env = ([PurgeStep.instances], some e))
    ∧ (ec2Purge env).1 = purgeOrder.take (ec2Purge env).1.length := by
  obtain ⟨t, d, k, p, s⟩ := env
  cases t <;> cases d <;> cases k <;> cases p <;> cases s <;>
    simp [ec2Purge, purgeOrder]

/-- Witness for `purge_sequential_order`: with every deletion call
succeeding, all five categories are attempted in order and no error
is raised. -/
theorem purge_sequential_order_witness :
    ec2Purge envPurgeOk = (purgeOrder, none) :=
  (purge_sequential_order envPurgeOk).1 rfl

/-- Claim C7: `pmkConnect` retries exactly on the three transient
connection errors with the fixed 15-second backoff and no retry-count
cap: if the first `k` attempts are transient and attempt `k` succeeds,
the call returns that session (having slept `15 * k` seconds); if
attempt `k` fails with any other error, that error propagates
unencapsulated at that point; and if every attempt is transient the
code retries forever — no fuel bound makes it give up. -/
theorem pmk_connect_retry_policy (attempt : Nat → ConnOutcome) (k : Nat)
    (h : ∀ m, m < k → isTransient (attempt m) = true) :
    (∀ s, attempt k = ConnOutcome.ok s → ∀ fuel,
      pmkConnect attempt (fuel + k + 1) 0 = some (Except.ok s, connectBackoff * k))
    ∧ (∀ e, attempt k = ConnOutcome.fatal e → ∀ fuel,
      pmkConnect attempt (fuel + k + 1) 0 = some (Except.error e, connectBackoff * k))
    ∧ ((∀ m, isTransient (attempt m) = true) → ∀ fuel n, pmkConnect attempt fuel n = none) := by
  have hshift : ∀ m, m < k → isTransient (attempt (0 + m)) = true := by
    intro m hm
    simpa using h m hm
  have hskip : ∀ fuel, pmkConnect attempt (fuel + 1 + k) 0 = pmkConnect attempt (fuel + 1) k := by
    intro fuel
    have := pmkConnect_skip attempt k (fuel + 1) 0 hshift
    simpa using this
  refine ⟨?_, ?_, ?_⟩
  · intro s hs fuel
    have he : fuel + k + 1 = fuel + 1 + k := by omega
    rw [he, hskip fuel]
    simp [pmkConnect, hs]
  · intro e hs fuel
    have he : fuel + k + 1 = fuel + 1 + k := by omega
    rw [he, hskip fuel]
    simp [pmkConnect, hs]
  · intro hall fuel
    induction fuel with
    | zero => intro n; rfl
    | succ j ih =>
      intro n
      rw [pmkConnect_transient_step attempt j n (hall n)]
      exact ih (n + 1)

/-- Witness for `pmk_connect_retry_policy`: two transient failures
followed by a successful third attempt yield the session after two
15-second backoffs. -/
theorem pmk_connect_retry_policy_witness :
    pmkConnect attemptW 3 0 = some (Except.ok 7, 30) :=
  (pmk_connect_retry_policy attemptW 2 (by decide)).1 7 rfl 0

/-- Claim C1, counterexample: with one worker of CPU count 4 and a
manager of CPU count 2, the hostfile built by `create_cluster` holds
the worker IP four times and the manager IP twice — six lines — while
the claim predicts `4 + (2 - 1) = 5` lines with the manager IP only
once: the code never subtracts one for the manager. -/
theorem hostfile_manager_minus_one_false :
    cpuCount (envHost instW).cpuRes = Except.ok 4
    ∧ cpuCount (envHost instM).cpuRes = Except.ok 2
    ∧ (createCluster none [instM, instW] [instW] envHost true true).hostfile
        = "10.0.0.2\n10.0.0.2\n10.0.0.2\n10.0.0.2\n10.0.0.1\n10.0.0.1\n"
    ∧ countNL (createCluster none [instM, instW] [instW] envHost true true).hostfile = 6
    ∧ (6 : Nat) ≠ 4 + (2 - 1) :=
  ⟨rfl, rfl, rfl, by decide, by decide⟩

/-- Claim C1 as amended: after a cluster-creation call with workers of
CPU counts `c_1..c_W` and a manager of CPU count `c_m` (counts as
discovered by `cpu_count`, IPs newline-free), the hostfile is the
concatenation of each worker's private IP repeated its full CPU count
times, in lock-acquisition order, followed by the manager's private IP
repeated its full CPU count times — `sum(c_i) + c_m` lines in total,
with no core reserved for the manager. -/
theorem hostfile_line_count (st : Option (List Instance)) (manager : Instance)
    (workers order : List Instance) (env : Instance → Remote) (cpu : Instance → Nat)
    (wrt mrt : Bool)
    (h0 : st = none ∨ st = some [])
    (h1 : order.Perm workers)
    (h2 : ∀ w ∈ manager :: workers, cpuCount (env w).cpuRes = Except.ok (cpu w))
    (h3 : ∀ w ∈ manager :: workers, countNL w.privateIp = 0) :
    (createCluster st (manager :: workers) order env wrt mrt).hostfile
      = blocksOf cpu order ++ ipLines manager.privateIp (cpu manager)
    ∧ countNL (createCluster st (manager :: workers) order env wrt mrt).hostfile
      = (workers.map cpu).sum + cpu manager := by
  have hcc : createCluster st (manager :: workers) order env wrt mrt
      = createClusterFresh (manager :: workers) order env wrt mrt := by
    rcases h0 with h | h <;> rw [h] <;> rfl
  have hofr : ∀ w ∈ order, cpuCount (env w).cpuRes = Except.ok (cpu w) := by
    intro w hw
    exact h2 w (List.mem_cons_of_mem manager (h1.mem_iff.mp hw))
  have hrw : runWorkers env wrt order "" = "" ++ blocksOf cpu order :=
    runWorkers_ok env wrt cpu order "" hofr
  have hm : cpuCount (env manager).cpuRes = Except.ok (cpu manager) :=
    h2 manager (List.mem_cons_self manager workers)
  have hmain : (createCluster st (manager :: workers) order env wrt mrt).hostfile
      = blocksOf cpu order ++ ipLines manager.privateIp (cpu manager) := by
    rw [hcc, createClusterFresh_cons]
    show (configureInstance env mrt (runWorkers env wrt order "") manager).1
      = blocksOf cpu order ++ ipLines manager.privateIp (cpu manager)
    rw [configureInstance_fst_ok env mrt _ manager (cpu manager) hm, hrw,
        String.empty_append]
  refine ⟨hmain, ?_⟩
  rw [hmain, countNL_append,
      countNL_ipLines _ _ (h3 manager (List.mem_cons_self manager workers)),
      countNL_blocksOf cpu order
        (fun w hw => h3 w (List.mem_cons_of_mem manager (h1.mem_iff.mp hw))),
      ((h1.map cpu).sum_eq : (order.map cpu).sum = (workers.map cpu).sum)]

/-- Witness for `hostfile_line_count`: one worker of CPU count 4 and a
manager of CPU count 2 yield a six-line hostfile. -/
theorem hostfile_line_count_witness :
    countNL (createCluster none [instM, instW] [instW] envHost true true).hostfile = 4 + 2 := by
  have h := hostfile_line_count none instM [instW] [instW] envHost
    (fun i => if i.id = 2 then 4 else 2) true true (Or.inl rfl) (List.Perm.refl _)
    (by intro w hw; fin_cases hw <;> rfl)
    (by intro w hw; fin_cases hw <;> rfl)
  simpa using h.2

/-- Claim C3, divergence witness: an exception raised while
configuring a worker is swallowed by its thread — `Thread.join`
returns normally — so the cluster-creation call neither terminates the
launched instances nor re-raises: with a worker whose CPU
introspection prints a non-numeric line (raising `ValueError` in the
worker thread) and a healthy manager, the call completes, records the
full batch as the active cluster, and the hostfile simply lacks the
failed worker's entries, contradicting the claimed whole-call
rollback. -/
theorem worker_thread_error_swallowed :
    (configureInstance envBadWorker true "" instW).2
      = some (PyErr.valueError "invalid literal for int() with base 10")
    ∧ (createCluster none [instM, instW] [instW] envBadWorker true true).raised = none
    ∧ (createCluster none [instM, instW] [instW] envBadWorker true true).terminatedAll = false
    ∧ (createCluster none [instM, instW] [instW] envBadWorker true true).recorded
        = some [instM, instW]
    ∧ (createCluster none [instM, instW] [instW] envBadWorker true true).hostfile
        = "10.0.0.1\n10.0.0.1\n" :=
  ⟨rfl, rfl, rfl, rfl, rfl⟩

/-- Claim C9: a cluster-creation call that finds no active in-process
cluster record launches exactly `n + 1` instances for `n` workers;
the first instance of the returned batch alone receives the
`(ver, manager)` tag, its private IP is recorded as the manager IP,
and the remaining `n` instances (and only they) are configured as
workers. -/
theorem create_cluster_shape (st : Option (List Instance)) (manager : Instance)
    (workers order : List Instance) (env : Instance → Remote) (wrt mrt : Bool) (n : Nat)
    (h0 : st = none ∨ st = some [])
    (h1 : workers.length = n)
    (h2 : order.Perm workers) :
    (createCluster st (manager :: workers) order env wrt mrt).launched = n + 1
    ∧ (createCluster st (manager :: workers) order env wrt mrt).managerTagged = [manager]
    ∧ (createCluster st (manager :: workers) order env wrt mrt).managerPrivate
        = some manager.privateIp
    ∧ (createCluster st (manager :: workers) order env wrt mrt).workersConfigured.Perm workers
    ∧ (createCluster st (manager :: workers) order env wrt mrt).workersConfigured.length = n := by
  have hcc : createCluster st (manager :: workers) order env wrt mrt
      = createClusterFresh (manager :: workers) order env wrt mrt := by
    rcases h0 with h | h <;> rw [h] <;> rfl
  rw [hcc, createClusterFresh_cons]
  exact ⟨by simp [h1], rfl, rfl, h2, by rw [h2.length_eq, h1]⟩

/-- Witness for `create_cluster_shape`: launching a cluster with one
worker launches two instances and tags only the first as manager. -/
theorem create_cluster_shape_witness :
    (createCluster none [instM, instW] [instW] envHost true true).launched = 2
    ∧ (createCluster none [instM, instW] [instW] envHost true true).managerTagged = [instM] := by
  have h := create_cluster_shape none instM [instW] [instW] envHost true true 1
    (Or.inl rfl) rfl (List.Perm.refl _)
  exact ⟨h.1, h.2.1⟩

/-- Claim C10: `get_manager` returns the in-process record's first
instance — a bare `Instance`, not a list — whenever the record is
non-empty, and otherwise returns either the non-empty list of
manager-tagged running or pending instances or `None`; and
`get_manager_ip` always subscripts the result with index 0 before
reading the IP attribute, so on the bare-instance shape the
subscription raises `TypeError`, on the list shape it reads the first
element's IP, and on `None` it returns `None`. -/
theorem get_manager_shapes (s : MState) (ipRef : Instance → String) :
    (∀ x t, s.rcluster = some (x :: t) →
      getManager s = ManagerResult.inst x
      ∧ getManagerIp s ipRef = Except.error (PyErr.typeError "not subscriptable"))
    ∧ ((s.rcluster = none ∨ s.rcluster = some []) →
      (∀ y t, s.tagQuery = y :: t →
        getManager s = ManagerResult.list (y :: t)
        ∧ getManagerIp s ipRef = Except.ok (some (ipRef y)))
      ∧ (s.tagQuery = [] →
        getManager s = ManagerResult.nothing
        ∧ getManagerIp s ipRef = Except.ok none)) := by
  constructor
  · intro x t hx
    have hg : getManager s = ManagerResult.inst x := by
      simp [getManager, hx]
    exact ⟨hg, by simp [getManagerIp, hg, mrTruthy, pySubscript0]⟩
  · intro hr
    constructor
    · intro y t hq
      have hg : getManager s = ManagerResult.list (y :: t) := by
        rcases hr with h | h <;> simp [getManager, tagLookup, h, hq]
      exact ⟨hg, by simp [getManagerIp, hg, mrTruthy, pySubscript0]⟩
    · intro hq
      have hg : getManager s = ManagerResult.nothing := by
        rcases hr with h | h <;> simp [getManager, tagLookup, h, hq]
      exact ⟨hg, by simp [getManagerIp, hg, mrTruthy]⟩

/-- Witness for `get_manager_shapes`: with an active in-process
cluster record, `get_manager_ip` subscripts the bare `Instance`
returned by `get_manager` and raises `TypeError`. -/
theorem get_manager_shapes_witness :
    getManagerIp { rcluster := some [instM, instW], tagQuery := [] } Instance.privateIp
      = Except.error (PyErr.typeError "not subscriptable") :=
  ((get_manager_shapes { rcluster := some [instM, instW], tagQuery := [] }
    Instance.privateIp).1 instM [instW] rfl).2

/-- Claim C2, counterexample: writes to `hostfile` and
`manager_private` are not mirrored into the `_config` snapshot.
Setting `hostfile` on a freshly constructed object updates the
attribute dictionary but leaves `_config` unchanged — the snapshot
contains no `hostfile` (or `manager_private`) entry at all, because
`__setattr__` mirrors only names in `_kwargs`, the constructor
parameters. -/
theorem config_snapshot_hostfile_not_mirrored :
    (setattrModel stateA "hostfile" (JVal.str "10.0.0.2\n")).config = stateA.config
    ∧ alookup (setattrModel stateA "hostfile" (JVal.str "10.0.0.2\n")).config "hostfile" = none
    ∧ alookup (setattrModel stateA "hostfile" (JVal.str "10.0.0.2\n")).attrs "hostfile"
        = some (JVal.str "10.0.0.2\n")
    ∧ (setattrModel stateA "manager_private" (JVal.str "10.0.0.1")).config = stateA.config
    ∧ alookup (setattrModel stateA "manager_private" (JVal.str "10.0.0.1")).config
        "manager_private" = none :=
  ⟨rfl, rfl, rfl, rfl, rfl⟩

/-- Claim C2 as amended: `__setattr__` mirrors a write into the
`_config` snapshot exactly for attribute names among the recorded
constructor parameters (once `_config` exists); writes to any other
attribute — in particular `hostfile` and `manager_private`, which are
not constructor parameters — leave the snapshot untouched.  The
instance template's image id, by contrast, does reach the snapshot
when `create_ami` assigns `instance_conf['ImageId']`, because the
snapshot's `instance_conf` entry aliases the same dictionary
object. -/
theorem setattr_mirrors_kwargs_only (s : RCState) (key : String) (v : JVal) (imgId : String) :
    (s.hasConfig = true → rclusterKwargs.contains key = true →
      alookup (setattrModel s key v).config key = some v)
    ∧ (rclusterKwargs.contains key = false → (setattrModel s key v).config = s.config)
    ∧ rclusterKwargs.contains "hostfile" = false
    ∧ rclusterKwargs.contains "manager_private" = false
    ∧ alookup (createAmiUpdateImage s imgId).config "instance_conf"
        = (alookup s.config "instance_conf").map (setImageId imgId) := by
  refine ⟨?_, ?_, by decide, by decide, ?_⟩
  · intro hc hk
    have hk2 : key ∈ rclusterKwargs := by simpa using hk
    simp [setattrModel, hc, hk2, alookup_aset_self]
  · intro hk
    have hk2 : key ∉ rclusterKwargs := by simpa using hk
    simp [setattrModel, hk2]
  · exact alookup_updVal s.config "instance_conf" (setImageId imgId)

/-- Witness for `setattr_mirrors_kwargs_only`: setting the constructor
parameter `ver` on a constructed object is mirrored into the
snapshot. -/
theorem setattr_mirrors_kwargs_only_witness :
    alookup (setattrModel stateA "ver" (JVal.str "0.3.0")).config "ver"
      = some (JVal.str "0.3.0") :=
  (setattr_mirrors_kwargs_only stateA "ver" (JVal.str "0.3.0") "ami-2").1 rfl (by decide)

theorem resolveNulls_cons (k : String) (v : JVal) (t : List (String × JVal))
    (prompt : String → String) :
    resolveNulls ((k, v) :: t) prompt = (k, resVal prompt k v) :: resolveNulls t prompt := by
  by_cases h : v = JVal.null <;> simp [resolveNulls, resVal, h]

theorem resVal_dict (prompt : String → String) (k : String) (d : List (String × JLeaf)) :
    resVal prompt k (JVal.dict d) = JVal.dict d := by
  simp [resVal]

theorem resVal_of_ne (prompt : String → String) (k : String) (v : JVal)
    (h : v ≠ JVal.null) : resVal prompt k v = v := by
  simp [resVal, h]

theorem resolveNulls_rinitConfig (a : InitArgs) (g : String) (prompt : String → String)
    (hg : g.isEmpty = false) :
    resolveNulls (rinitConfig a g) prompt
      = [("aws_access_key_id", resVal prompt "aws_access_key_id" a.aws_access_key_id),
         ("aws_secret_access_key", resVal prompt "aws_secret_access_key" a.aws_secret_access_key),
         ("region_name", resVal prompt "region_name" a.region_name),
         ("instance_conf", JVal.dict (initIC a)),
         ("manager_runtime", resVal prompt "manager_runtime" a.manager_runtime),
         ("worker_runtime", resVal prompt "worker_runtime" a.worker_runtime),
         ("key_path", initKeyPath a g),
         ("ip_ref", resVal prompt "ip_ref" a.ip_ref),
         ("ver", resVal prompt "ver" a.ver)] := by
  have hkpnn : initKeyPath a g ≠ JVal.null :=
    truthy_ne_null _ (truthy_initKeyPath a g hg)
  show resolveNulls
      [("aws_access_key_id", a.aws_access_key_id),
       ("aws_secret_access_key", a.aws_secret_access_key),
       ("region_name", a.region_name),
       ("instance_conf", JVal.dict (initIC a)),
       ("manager_runtime", a.manager_runtime),
       ("worker_runtime", a.worker_runtime),
       ("key_path", initKeyPath a g),
       ("ip_ref", a.ip_ref),
       ("ver", a.ver)] prompt = _
  simp only [resolveNulls_cons]
  rw [resVal_dict, resVal_of_ne prompt "key_path" _ hkpnn]
  rfl

/-- Claim C8: writing a constructed object's configuration and loading
a new one from the written snapshot (with no overrides) reproduces
every previously-set configuration field whose value is not a
prompted-for `null`: the reload succeeds, and each non-null field of
the original snapshot reappears in the reloaded object's snapshot with
the identical value.  `g` is the generated-key path of the original
construction (a non-empty path string), `g2` that of the reload, and
`prompt` the interactive prompt. -/
theorem config_roundtrip (a : InitArgs) (g g2 : String) (prompt : String → String)
    (hg : g.isEmpty = false) :
    ∃ a2, fromConfig (writeConfig (rinitConfig a g)) prompt = some a2
      ∧ ∀ k v, alookup (rinitConfig a g) k = some v → v ≠ JVal.null →
          alookup (rinitConfig a2 g2) k = some v := by
  refine ⟨reloadedArgs a g prompt, ?_, ?_⟩
  · show toInitArgs (resolveNulls (rinitConfig a g) prompt) = some (reloadedArgs a g prompt)
    rw [resolveNulls_rinitConfig a g prompt hg]
    rfl
  · intro k v hv hnn
    have hic : initIC (reloadedArgs a g prompt) = initIC a :=
      (initIC_stable _ (hasKey_initIC_sg a) (hasKey_initIC_pl a)).trans rfl
    have hkp2 : initKeyPath (reloadedArgs a g prompt) g2 = initKeyPath a g :=
      (initKeyPath_stable _ g2 (truthy_initKeyPath a g hg)).trans rfl
    have heq : rinitConfig (reloadedArgs a g prompt) g2
        = resolveNulls (rinitConfig a g) prompt := by
      rw [resolveNulls_rinitConfig a g prompt hg]
      show [("aws_access_key_id", (reloadedArgs a g prompt).aws_access_key_id),
            ("aws_secret_access_key", (reloadedArgs a g prompt).aws_secret_access_key),
            ("region_name", (reloadedArgs a g prompt).region_name),
            ("instance_conf", JVal.dict (initIC (reloadedArgs a g prompt))),
            ("manager_runtime", (reloadedArgs a g prompt).manager_runtime),
            ("worker_runtime", (reloadedArgs a g prompt).worker_runtime),
            ("key_path", initKeyPath (reloadedArgs a g prompt) g2),
            ("ip_ref", (reloadedArgs a g prompt).ip_ref),
            ("ver", (reloadedArgs a g prompt).ver)] = _
      rw [hic, hkp2]
      rfl
    rw [heq]
    exact alookup_resolveNulls _ prompt k v hv hnn

/-- Witness for `config_roundtrip` at the concrete configuration
`argsA` (no null fields except `worker_runtime`): the reload succeeds
and reproduces the non-null `ver` field identically. -/
theorem config_roundtrip_witness :
    ∃ a2, fromConfig (writeConfig (rinitConfig argsA "/home/u/.rcluster/0.2.21.pem"))
        (fun _ => "typed") = some a2
      ∧ alookup (rinitConfig a2 "/home/u/.rcluster/0.2.21.pem") "ver"
          = some (JVal.str "0.2.21") := by
  obtain ⟨a2, hsome, hpres⟩ := config_roundtrip argsA "/home/u/.rcluster/0.2.21.pem"
    "/home/u/.rcluster/0.2.21.pem" (fun _ => "typed") (by decide)
  exact ⟨a2, hsome, hpres "ver" (JVal.str "0.2.21") rfl (by decide)⟩

end RclusterSpec
